import Mathlib

/-!
Shallow embedding of the terminal session lifecycle manager
(`src/renderer/terminal/TerminalSessionManager.ts`).

Each manager method is translated into a pure Lean function on an explicit
`SessionState`, returning the updated state together with a trace of the
externally observable effects the method performs (transport calls, buffer
mutations, listener invocations).  Asynchronous snapshot capture tasks are
modelled by an explicit set of in-flight task ids: initiating a capture
appends a fresh id, and the task body / completion handler are separate
functions, so overlapping initiations and completions can be expressed.
Wall-clock time (`Date.now()`) and the availability of the optional
snapshot-store API are passed in as parameters.
-/

namespace TerminalSession

/-- The capture reason literal type `'interval' | 'detach' | 'dispose'`. -/
inductive Reason where
  | interval
  | detach
  | dispose
deriving DecidableEq, Repr

/-- Observable effects a manager method performs: calls into the process
transport (`ptyInput` / `ptyResize` / `ptyKill`), snapshot-store traffic,
mutations of the visible terminal buffer, listener invocations and the
teardown steps of `dispose`. -/
inductive Effect where
  | ptyInput (data : String)
  | ptyResize (cols rows : Nat)
  | ptyKill
  | taskStarted (id : Nat) (reason : Reason)
  | saveRequested (reason : Reason)
  | snapshotMarked
  | containerMovedTo (c : Nat)
  | containerToHost
  | termOpened
  | fitRequested
  | observeStarted
  | rafScheduled
  | termReset
  | termResize (cols rows : Nat)
  | termRefresh
  | bufferWrite (s : String)
  | bufferCleared
  | bufferLine (s : String)
  | listenerInvoked (l : Nat)
  | listenerFailedLogged (l : Nat) (msg : String)
  | cleanupRun (i : Nat)
  | metricsDisposed
  | terminalDisposed
  | metricsRecordedExit
deriving DecidableEq, Repr

/-- The mutable fields of a `TerminalSessionManager` instance that the
lifecycle methods read or write.  Containers, registered listeners and
registered cleanup actions are identified by numeric ids.  `inFlight` and
`nextTaskId` are the explicit model of the asynchronous capture tasks the
class creates (`pendingSnapshot` is the field of the same name: the task id
the manager currently tracks, if any). -/
structure SessionState where
  disposed : Bool
  opened : Bool
  ptyStarted : Bool
  firstFrameRendered : Bool
  attachedContainer : Option Nat
  resizeObserver : Bool
  snapshotTimer : Bool
  pendingSnapshot : Option Nat
  inFlight : List Nat
  nextTaskId : Nat
  lastSnapshotAt : Option Nat
  lastSnapshotReason : Option Reason
  activityListeners : List Nat
  readyListeners : List Nat
  errorListeners : List Nat
  exitListeners : List Nat
  disposables : List Nat
  metricsTotal : Nat
  cols : Nat
  rows : Nat
deriving DecidableEq, Repr

/-- `const SNAPSHOT_INTERVAL_MS = 2 * 60 * 1000`. -/
def SNAPSHOT_INTERVAL_MS : Nat := 2 * 60 * 1000

/-- `const MAX_DATA_WINDOW_BYTES = 128 * 1024 * 1024` — the 128 MiB soft
guardrail ceiling. -/
def MAX_DATA_WINDOW_BYTES : Nat := 128 * 1024 * 1024

/-- Modelled from the spec: `TERMINAL_SNAPSHOT_VERSION` is imported from
`#types/terminalSnapshot`, a file that is not part of the provided sources;
the spec's restore scenario fixes the current snapshot version at `1`. -/
def TERMINAL_SNAPSHOT_VERSION : Nat := 1

/-- The sentinel notice line written when the memory guardrail rejects a
chunk. -/
def scrollbackSentinel : String := "[scrollback truncated to protect memory]"

/-! ## Listener fan-out (`emitActivity` / `emitReady` / `emitError` /
`emitExit`)

A listener's behaviour is an environment function returning `Except`:
`.ok ()` for a normal return and `.error m` for a thrown exception.  The
source loops over the registry and wraps each call in `try`/`catch`, logging
a caught error; the embedding mirrors that loop, recording an invocation
effect for every listener and a logged-failure effect for a throwing one.
The embedding is a total function: just as in the source, no listener
exception escapes to the caller of the emit. -/

/-- The shared `for (const listener of registry) { try { listener() } catch
(error) { log.warn(...) } }` loop of the four emit methods. -/
def fanout (call : Nat → Except String Unit) : List Nat → List Effect
  | [] => []
  | l :: rest =>
    match call l with
    | .ok _ => .listenerInvoked l :: fanout call rest
    | .error m => .listenerInvoked l :: .listenerFailedLogged l m :: fanout call rest

/-- The listeners a trace records as invoked. -/
def invokedIds (es : List Effect) : List Nat :=
  es.filterMap fun e =>
    match e with
    | .listenerInvoked l => some l
    | _ => none

/-- `private emitActivity()`. -/
def emitActivity (call : Nat → Except String Unit) (s : SessionState) : List Effect :=
  fanout call s.activityListeners

/-- `private emitReady()`. -/
def emitReady (call : Nat → Except String Unit) (s : SessionState) : List Effect :=
  fanout call s.readyListeners

/-- `private emitError(message)`. -/
def emitError (call : Nat → String → Except String Unit) (msg : String)
    (s : SessionState) : List Effect :=
  fanout (fun l => call l msg) s.errorListeners

/-- Exit information delivered by the transport (`{ exitCode, signal }`). -/
structure ExitInfo where
  exitCode : Option Nat
  signal : Option Nat
deriving DecidableEq, Repr

/-- `private emitExit(info)`. -/
def emitExit (call : Nat → ExitInfo → Except String Unit) (info : ExitInfo)
    (s : SessionState) : List Effect :=
  fanout (fun l => call l info) s.exitListeners

/-! ## Input filtering (`terminal.onData` handler in the constructor) -/

/-- The focus-in report `ESC [ I`. -/
def focusIn : List Char := ['\x1b', '[', 'I']

/-- The focus-out report `ESC [ O`. -/
def focusOut : List Char := ['\x1b', '[', 'O']

/-- Whether a three-character window is one of the two focus reports
(`ESC [ I` or `ESC [ O`). -/
def frWindow (a b c : Char) : Bool :=
  a = '\x1b' && b = '[' && (c = 'I' || c = 'O')

/-- `data.replace(/\x1b\[I|\x1b\[O/g, '')` on the character list: a single
left-to-right pass removing each leftmost, non-overlapping match, exactly as
a JavaScript global replace does (the produced text is not rescanned). -/
def removeFR : List Char → List Char
  | a :: b :: c :: rest =>
    if frWindow a b c then removeFR rest
    else a :: removeFR (b :: c :: rest)
  | a :: rest => a :: removeFR rest
  | [] => []

/-- Whether the character list contains an occurrence of `ESC[I` or
`ESC[O`. -/
def containsFR : List Char → Bool
  | a :: b :: c :: rest => frWindow a b c || containsFR (b :: c :: rest)
  | _ => false

/-- The filter applied to user input before it is forwarded to the PTY. -/
def removeFocusReports (s : String) : String :=
  ⟨removeFR s.data⟩

/-- String-level occurrence test. -/
def containsFocusReport (s : String) : Bool :=
  containsFR s.data

/-- The `terminal.onData` handler installed in the constructor: emit
activity, then — unless disposed — filter focus reports out of the data and
forward the result through `ptyInput` when it is non-empty. -/
def handleInput (call : Nat → Except String Unit) (data : String)
    (s : SessionState) : SessionState × List Effect :=
  let act := emitActivity call s
  if s.disposed then (s, act)
  else
    let filtered := removeFocusReports data
    if filtered = "" then (s, act)
    else (s, act ++ [.ptyInput filtered])

/-- The payload strings of the `ptyInput` effects in a trace: what the
trace forwards to the transport. -/
def ptyInputs (es : List Effect) : List String :=
  es.filterMap fun e =>
    match e with
    | .ptyInput d => some d
    | _ => none

/-- The `onPtyExit` handler installed by `connectPty`: record the exit in
the metrics, clear `ptyStarted` and fan the event out to the exit
listeners. -/
def handleExit (call : Nat → ExitInfo → Except String Unit) (info : ExitInfo)
    (s : SessionState) : SessionState × List Effect :=
  ({ s with ptyStarted := false }, .metricsRecordedExit :: emitExit call info s)

/-! ## Snapshot capture (`captureSnapshot` and the asynchronous task)

`captureSnapshot` runs synchronously up to the creation of the async task:
it checks the guards (store availability, `disposed`, the detach debounce)
and, when they pass, creates the task, records it in `pendingSnap` and adds
it to the in-flight set.  The task body (`captureTaskRun`) and the `finally`
completion handler (`captureTaskFinish`) are modelled separately, since they
run asynchronously. -/

/-- The debounce guard of `captureSnapshot`: a `detach`-tagged capture is
skipped when the previous capture's recorded reason is `detach` and its
recorded completion time `lastSnapshotAt` is truthy (non-null and non-zero,
matching the JavaScript `&& this.lastSnapshotAt` test) with
`Date.now() - lastSnapshotAt < 1500`. -/
def debounceHit (reason : Reason) (lastReason : Option Reason)
    (lastAt : Option Nat) (now : Nat) : Bool :=
  reason = Reason.detach && lastReason = some Reason.detach &&
    match lastAt with
    | some t => decide (t ≠ 0) && decide (now - t < 1500)
    | none => false

/-- The synchronous part of `private captureSnapshot(reason)`:
return immediately when the store API is unavailable, when the session is
disposed, or when the detach debounce fires; otherwise create the capture
task (a fresh task id becomes in flight) and track it in
`pendingSnapshot`. -/
def captureSnapshot (storeAvail : Bool) (now : Nat) (reason : Reason)
    (s : SessionState) : SessionState × List Effect :=
  if !storeAvail then (s, [])
  else if s.disposed then (s, [])
  else if debounceHit reason s.lastSnapshotReason s.lastSnapshotAt now then (s, [])
  else
    let tid := s.nextTaskId
    ({ s with nextTaskId := tid + 1,
              pendingSnapshot := some tid,
              inFlight := s.inFlight ++ [tid] },
     [.taskStarted tid reason])

/-- The body of the capture task: serialize the buffer (the serialized text
is an input here), abandon the capture when the text is empty and the
reason is `detach`, otherwise request a save; a successful save marks the
metrics.  Errors are caught and logged, so the body is total. -/
def captureTaskRun (serialized : String) (saveOk : Bool) (reason : Reason) :
    List Effect :=
  if serialized = "" && reason = Reason.detach then []
  else .saveRequested reason :: (if saveOk then [.snapshotMarked] else [])

/-- The `finally` handler of the capture task: drop the task from the
in-flight set, clear `pendingSnapshot` when it still refers to this task,
and unconditionally record the completion time and reason. -/
def captureTaskFinish (tid : Nat) (reason : Reason) (finishedAt : Nat)
    (s : SessionState) : SessionState :=
  { s with inFlight := s.inFlight.erase tid,
           pendingSnapshot := if s.pendingSnapshot = some tid then none
                              else s.pendingSnapshot,
           lastSnapshotAt := some finishedAt,
           lastSnapshotReason := some reason }

/-! ## Attach / detach / dispose -/

/-- `private sendSizeIfStarted()`: forward the current terminal size to the
transport only when the PTY has started and the session is not disposed. -/
def sendSizeIfStarted (s : SessionState) : List Effect :=
  if s.ptyStarted && !s.disposed then [.ptyResize s.cols s.rows] else []

/-- `detach()`: a no-op when no container is attached; otherwise disconnect
the resize observer, move the render container back to the off-screen host,
clear the attachment reference and trigger a `detach`-tagged capture. -/
def detach (storeAvail : Bool) (now : Nat) (s : SessionState) :
    SessionState × List Effect :=
  match s.attachedContainer with
  | none => (s, [])
  | some _ =>
    let s1 := { s with resizeObserver := false, attachedContainer := none }
    let r := captureSnapshot storeAvail now Reason.detach s1
    (r.1, .containerToHost :: r.2)

/-- `attach(container)`: throw on a disposed session; no-op when already
attached to the same container; otherwise detach first, move the render
container into the new surface, open the terminal on first attach only,
fit, forward the size when the PTY is running, start observing container
resizes and schedule a next-frame re-fit. -/
def attach (storeAvail : Bool) (now : Nat) (c : Nat) (s : SessionState) :
    Except String (SessionState × List Effect) :=
  if s.disposed then .error "already disposed"
  else if s.attachedContainer = some c then .ok (s, [])
  else
    let r1 := detach storeAvail now s
    let openEffects := if r1.1.opened then [] else [Effect.termOpened]
    let s2 := { r1.1 with attachedContainer := some c, opened := true,
                          resizeObserver := true }
    .ok (s2, r1.2 ++ [.containerMovedTo c] ++ openEffects ++ [.fitRequested]
            ++ sendSizeIfStarted s2 ++ [.observeStarted, .rafScheduled])

/-- `dispose()`: return at once when already disposed; otherwise set the
`disposed` flag, detach (which attempts a `detach`-tagged capture), stop
the snapshot timer, attempt a `dispose`-tagged capture, kill the PTY
(failure caught), run and clear all registered cleanup actions (failures
caught), dispose the metrics, clear all four listener registries and
dispose the terminal. -/
def dispose (storeAvail : Bool) (now : Nat) (s : SessionState) :
    SessionState × List Effect :=
  if s.disposed then (s, [])
  else
    let s1 := { s with disposed := true }
    let r2 := detach storeAvail now s1
    let s3 := { r2.1 with snapshotTimer := false }
    let r4 := captureSnapshot storeAvail now Reason.dispose s3
    let cleanups := r4.1.disposables.map Effect.cleanupRun
    let s5 := { r4.1 with disposables := [],
                          activityListeners := [], readyListeners := [],
                          errorListeners := [], exitListeners := [] }
    (s5, r2.2 ++ r4.2 ++ [.ptyKill] ++ cleanups
        ++ [.metricsDisposed, .terminalDisposed])

/-! ## Snapshot restore (`restoreSnapshot`) -/

/-- The persisted snapshot payload fields `restoreSnapshot` reads
(`stats` and `createdAt` are written by capture but never read on
restore). -/
structure TerminalSnapshotPayload where
  version : Nat
  cols : Nat
  rows : Nat
  data : String
deriving DecidableEq, Repr

/-- `private async restoreSnapshot()`: return when the store API is absent,
the response is not ok / has no snapshot, or the snapshot's `data` is
falsy; discard the payload when its `version` is truthy (non-zero) and
differs from `TERMINAL_SNAPSHOT_VERSION`; otherwise reset the terminal,
write the snapshot text, and resize when `cols` and `rows` are truthy.
Exceptions are caught and logged, so the embedding is total. -/
def restoreSnapshot (storeAvail : Bool) (resp : Option TerminalSnapshotPayload)
    (s : SessionState) : SessionState × List Effect :=
  if !storeAvail then (s, [])
  else
    match resp with
    | none => (s, [])
    | some p =>
      if p.data = "" then (s, [])
      else if p.version ≠ 0 && p.version ≠ TERMINAL_SNAPSHOT_VERSION then (s, [])
      else
        let writeEffects := [Effect.termReset, Effect.bufferWrite p.data]
        let resizeEffects :=
          if p.cols ≠ 0 && p.rows ≠ 0 then [Effect.termResize p.cols p.rows] else []
        (s, writeEffects ++ resizeEffects)

/-! ## Memory guardrail and the `onPtyData` handler -/

/-- Modelled from the spec: `TerminalMetrics` lives in
`src/renderer/terminal/TerminalMetrics.ts`, which is not among the provided
sources.  Per spec §4.4 the guardrail keeps a running total of bytes
admitted since the last reset; `canAccept(chunk)` reports whether admitting
the chunk keeps the total within the 128 MiB ceiling, and on a rejection
the counter is reset.  The returned pair is (accepted?, new running
total). -/
def canAccept (total chunkBytes : Nat) : Bool × Nat :=
  if total + chunkBytes ≤ MAX_DATA_WINDOW_BYTES then (true, total + chunkBytes)
  else (false, 0)

/-- The `onPtyData` handler installed by `connectPty`: when the guardrail
rejects the chunk, clear the visible buffer and write the single sentinel
notice line; in every case write the chunk, and force a refresh for the
first rendered frame. -/
def handlePtyData (chunk : String) (s : SessionState) :
    SessionState × List Effect :=
  let acc := canAccept s.metricsTotal chunk.length
  let truncEffects :=
    if acc.1 then [] else [Effect.bufferCleared, Effect.bufferLine scrollbackSentinel]
  let s1 := { s with metricsTotal := acc.2 }
  if s1.firstFrameRendered then
    (s1, truncEffects ++ [.bufferWrite chunk])
  else
    ({ s1 with firstFrameRendered := true },
     truncEffects ++ [.bufferWrite chunk, .termRefresh])

/-- Deliver a sequence of output chunks to the `onPtyData` handler in
order, concatenating the traces. -/
def processChunks : List String → SessionState → SessionState × List Effect
  | [], s => (s, [])
  | c :: rest, s =>
    let r1 := handlePtyData c s
    let r2 := processChunks rest r1.1
    (r2.1, r1.2 ++ r2.2)

/-- Total byte size of a chunk sequence. -/
def sumLen (cs : List String) : Nat :=
  (cs.map String.length).sum

/-- How many times a trace signals the guardrail truncation (clears the
buffer). -/
def truncationCount (es : List Effect) : Nat :=
  es.countP fun e => e = Effect.bufferCleared

/-! ## Concrete states used by witnesses and counterexamples -/

/-- The state change `attach` applies on top of the detach result when
attaching to container `c`: record the attachment, mark the terminal
opened and install the resize observer. -/
def reattachState (s : SessionState) (c : Nat) : SessionState :=
  { s with attachedContainer := some c, opened := true,
           resizeObserver := true }

/-- A freshly constructed session: not disposed, never opened, nothing
attached, no capture ever completed, snapshot timer running. -/
def baseState : SessionState :=
  { disposed := false, opened := false, ptyStarted := false,
    firstFrameRendered := false, attachedContainer := none,
    resizeObserver := false, snapshotTimer := true, pendingSnapshot := none,
    inFlight := [], nextTaskId := 0, lastSnapshotAt := none,
    lastSnapshotReason := none, activityListeners := [], readyListeners := [],
    errorListeners := [], exitListeners := [], disposables := [],
    metricsTotal := 0, cols := 80, rows := 24 }

/-- A session in steady running state: PTY started, first frame rendered,
attached to container `7`, with listeners and a cleanup action
registered. -/
def runningState : SessionState :=
  { baseState with opened := true, ptyStarted := true,
                   firstFrameRendered := true, attachedContainer := some 7,
                   resizeObserver := true, activityListeners := [1, 2],
                   readyListeners := [3], errorListeners := [4],
                   exitListeners := [5], disposables := [9] }

/-- A session whose last completed capture was `detach`-tagged at time
1000. -/
def debouncedState : SessionState :=
  { runningState with lastSnapshotAt := some 1000,
                      lastSnapshotReason := some Reason.detach }

/-- The fresh session after an `interval` capture initiated at time 0,
with that task (id `0`) still unresolved. -/
def oneTaskPendingState : SessionState :=
  (captureSnapshot true 0 Reason.interval baseState).1

/-- A disposed session. -/
def disposedState : SessionState := { baseState with disposed := true }

/-- The running session attached to container `9` instead of `7`. -/
def attachedElsewhereState : SessionState :=
  { runningState with attachedContainer := some 9 }

/-- Whether an effect initiates or persists a snapshot capture. -/
def startsOrSavesCapture : Effect → Bool
  | .taskStarted _ _ => true
  | .saveRequested _ => true
  | _ => false

/-- A fresh session whose first frame has rendered (the steady state for
process output delivery). -/
def frameReadyState : SessionState :=
  { baseState with firstFrameRendered := true }

/-- A single output chunk one byte past the 128 MiB guardrail ceiling. -/
def hugeChunk : String :=
  ⟨List.replicate (MAX_DATA_WINDOW_BYTES + 1) 'a'⟩

/-- Interleave occurrence-free segments with focus-report separators
(`true` ↦ `ESC[I`, `false` ↦ `ESC[O`) and close with a tail: every string
containing focus reports decomposes this way along its leftmost,
non-overlapping matches. -/
def joinSegs : List (List Char × Bool) → List Char → List Char
  | [], tail => tail
  | pr :: rest, tail => pr.1 ++ (if pr.2 then focusIn else focusOut) ++ joinSegs rest tail

/-! # Lifecycle helper lemmas -/

theorem captureSnapshot_fst_disposed (a : Bool) (n : Nat) (r : Reason)
    (s : SessionState) : (captureSnapshot a n r s).1.disposed = s.disposed := by
  unfold captureSnapshot
  repeat' split
  all_goals rfl

theorem detach_fst_disposed (a : Bool) (n : Nat) (s : SessionState) :
    (detach a n s).1.disposed = s.disposed := by
  unfold detach
  cases h : s.attachedContainer with
  | none => rfl
  | some c => simp [captureSnapshot_fst_disposed]

theorem dispose_fst_disposed (a : Bool) (n : Nat) (s : SessionState) :
    (dispose a n s).1.disposed = true := by
  unfold dispose
  by_cases h : s.disposed
  · simp [h]
  · simp [h, captureSnapshot_fst_disposed, detach_fst_disposed]

theorem dispose_of_disposed (a : Bool) (n : Nat) (s : SessionState)
    (h : s.disposed = true) : dispose a n s = (s, []) := by
  simp [dispose, h]

/-- **C6** — `dispose()` is idempotent: whatever the session state and
whatever the wall-clock time or store availability at each call, the second
`dispose()` changes nothing — it returns the state of the first call
unchanged and performs no observable effect (no listener invocation, no
snapshot capture, no transport kill, no state change). -/
theorem dispose_idempotent (a₁ a₂ : Bool) (n₁ n₂ : Nat) (s : SessionState) :
    dispose a₂ n₂ (dispose a₁ n₁ s).1 = ((dispose a₁ n₁ s).1, []) :=
  dispose_of_disposed a₂ n₂ _ (dispose_fst_disposed a₁ n₁ s)

/-! # Listener fan-out -/

theorem invokedIds_fanout (call : Nat → Except String Unit) (ls : List Nat) :
    invokedIds (fanout call ls) = ls := by
  induction ls with
  | nil => rfl
  | cons l rest ih =>
    unfold fanout
    cases call l <;> simp [invokedIds, List.filterMap_cons] at ih ⊢ <;> exact ih

/-- **C8** — for each of the four event channels (activity, ready, error,
exit) and every set of registered listeners, emitting the event invokes
every currently registered listener, for *every* possible listener
behaviour — including behaviours where some listeners throw.  A throwing
listener's exception is caught (and logged as a `listenerFailedLogged`
effect) and does not prevent the remaining listeners from being invoked;
the emit functions are total, so no exception propagates to the caller of
the emit. -/
theorem emit_invokes_every_listener (s : SessionState)
    (callA callR : Nat → Except String Unit)
    (callE : Nat → String → Except String Unit)
    (callX : Nat → ExitInfo → Except String Unit)
    (msg : String) (info : ExitInfo) :
    invokedIds (emitActivity callA s) = s.activityListeners ∧
    invokedIds (emitReady callR s) = s.readyListeners ∧
    invokedIds (emitError callE msg s) = s.errorListeners ∧
    invokedIds (emitExit callX info s) = s.exitListeners :=
  ⟨invokedIds_fanout .., invokedIds_fanout .., invokedIds_fanout ..,
   invokedIds_fanout ..⟩

/-! # Snapshot capture: debounce and overlap -/

/-- **C5** — the detach debounce: on a live session with the store
available, a `detach`-tagged capture attempted when the previous completed
capture was also `detach`-tagged and finished (at a positive clock value
`t`) less than 1.5 seconds earlier is skipped entirely — no task is
started, no save is requested, the state is unchanged; a `detach`-tagged
capture attempted 1.5 seconds or more after that completion is not
suppressed: it starts a capture task. -/
theorem captureSnapshot_detach_debounce (s : SessionState) (t n₁ n₂ : Nat)
    (hreason : s.lastSnapshotReason = some Reason.detach)
    (hat : s.lastSnapshotAt = some t)
    (ht : 0 < t)
    (hdisp : s.disposed = false)
    (hnear : n₁ - t < 1500)
    (hfar : 1500 ≤ n₂ - t) :
    captureSnapshot true n₁ Reason.detach s = (s, []) ∧
    (captureSnapshot true n₂ Reason.detach s).2 =
      [Effect.taskStarted s.nextTaskId Reason.detach] ∧
    (captureSnapshot true n₂ Reason.detach s).1.inFlight =
      s.inFlight ++ [s.nextTaskId] := by
  have hdeb₁ : debounceHit Reason.detach s.lastSnapshotReason s.lastSnapshotAt n₁
      = true := by
    simp [debounceHit, hreason, hat]
    omega
  have hdeb₂ : debounceHit Reason.detach s.lastSnapshotReason s.lastSnapshotAt n₂
      = false := by
    simp [debounceHit, hreason, hat]
    omega
  refine ⟨?_, ?_, ?_⟩ <;> simp [captureSnapshot, hdisp, hdeb₁, hdeb₂]

/-- Witness for C5: on `debouncedState` (previous detach capture finished
at `t = 1000`), a detach capture at `now = 2000` (1.0 s later) is skipped
and a detach capture at `now = 2500` (1.5 s later) starts a task. -/
theorem captureSnapshot_detach_debounce_witness :
    (debouncedState.lastSnapshotReason = some Reason.detach ∧
     debouncedState.lastSnapshotAt = some 1000 ∧
     0 < 1000 ∧ debouncedState.disposed = false ∧
     2000 - 1000 < 1500 ∧ 1500 ≤ 2500 - 1000) ∧
    (captureSnapshot true 2000 Reason.detach debouncedState
       = (debouncedState, []) ∧
     (captureSnapshot true 2500 Reason.detach debouncedState).2 =
       [Effect.taskStarted debouncedState.nextTaskId Reason.detach] ∧
     (captureSnapshot true 2500 Reason.detach debouncedState).1.inFlight =
       debouncedState.inFlight ++ [debouncedState.nextTaskId]) :=
  ⟨⟨rfl, rfl, by decide, rfl, by decide, by decide⟩,
   captureSnapshot_detach_debounce debouncedState 1000 2000 2500 rfl rfl
     (by decide) rfl (by decide) (by decide)⟩

/-- **C3 (counterexample)** — the claim "initiating a capture while the
pending task recorded for the session is still unresolved starts no second
task" is false: on a fresh session, an `interval` capture at time 0 starts
task `0` and records it as pending; with task `0` still unresolved, a
second `interval` capture at time 100 starts task `1`, leaving two capture
tasks in flight at once. -/
theorem captureSnapshot_overlap_counterexample :
    (captureSnapshot true 0 Reason.interval baseState).1.pendingSnapshot
      = some 0 ∧
    (captureSnapshot true 0 Reason.interval baseState).1.inFlight = [0] ∧
    (captureSnapshot true 100 Reason.interval
        (captureSnapshot true 0 Reason.interval baseState).1).1.inFlight
      = [0, 1] := by
  refine ⟨?_, ?_, ?_⟩ <;> rfl

/-- **C3 (amended)** — a capture initiation is gated only by the
availability of the snapshot store, the `disposed` flag and the detach
debounce; the tracked pending task is never consulted, so whenever those
three guards pass a fresh capture task is started — even when the state
already records unresolved in-flight tasks (a second initiation therefore
runs concurrently with an unresolved first one; triggers never cancel a
running capture). -/
theorem captureSnapshot_starts_whenever_guards_pass (s : SessionState)
    (now : Nat) (reason : Reason)
    (hdisp : s.disposed = false)
    (hdeb : debounceHit reason s.lastSnapshotReason s.lastSnapshotAt now
      = false) :
    (captureSnapshot true now reason s).1.inFlight
      = s.inFlight ++ [s.nextTaskId] ∧
    (captureSnapshot true now reason s).1.pendingSnapshot
      = some s.nextTaskId ∧
    (captureSnapshot true now reason s).2
      = [Effect.taskStarted s.nextTaskId reason] := by
  refine ⟨?_, ?_, ?_⟩ <;> simp [captureSnapshot, hdisp, hdeb]

/-- Witness for the amended C3: with task `0` pending and unresolved, the
guards pass for a second `interval` capture, which starts task `1`. -/
theorem captureSnapshot_starts_whenever_guards_pass_witness :
    (oneTaskPendingState.disposed = false ∧
     debounceHit Reason.interval oneTaskPendingState.lastSnapshotReason
       oneTaskPendingState.lastSnapshotAt 100 = false) ∧
    ((captureSnapshot true 100 Reason.interval oneTaskPendingState).1.inFlight
       = oneTaskPendingState.inFlight ++ [oneTaskPendingState.nextTaskId] ∧
     (captureSnapshot true 100 Reason.interval
        oneTaskPendingState).1.pendingSnapshot
       = some oneTaskPendingState.nextTaskId ∧
     (captureSnapshot true 100 Reason.interval oneTaskPendingState).2
       = [Effect.taskStarted oneTaskPendingState.nextTaskId
            Reason.interval]) :=
  ⟨⟨rfl, by decide⟩,
   captureSnapshot_starts_whenever_guards_pass oneTaskPendingState 100
     Reason.interval rfl (by decide)⟩

/-! # Snapshot restore -/

/-- **C2 (counterexample)** — the claim "a stored payload whose version
differs from the current snapshot version is discarded, *including version
0 when the current version is 1*" is false: a payload with `version = 0`
(which differs from `TERMINAL_SNAPSHOT_VERSION = 1`) slips past the
truthiness test `snapshot.version && snapshot.version !==
TERMINAL_SNAPSHOT_VERSION` and is restored — the terminal is reset and the
payload text is written into the buffer. -/
theorem restoreSnapshot_version_zero_counterexample :
    (0 : Nat) ≠ TERMINAL_SNAPSHOT_VERSION ∧
    (restoreSnapshot true
        (some { version := 0, cols := 0, rows := 0, data := "x" })
        baseState).2
      = [Effect.termReset, Effect.bufferWrite "x"] :=
  ⟨by decide, rfl⟩

/-- **C2 (amended)** — for every stored payload whose version is *nonzero*
and differs from the current snapshot version, `restoreSnapshot` discards
the payload: the state is unchanged and no effect is performed — the
terminal buffer is not written to, no resize occurs, and (the embedding
being a total function, mirroring the source's catch-and-log) no error is
raised.  A payload with version `0` is treated like an unversioned legacy
payload and bypasses the version check. -/
theorem restoreSnapshot_nonzero_mismatch_discarded
    (p : TerminalSnapshotPayload) (s : SessionState) (avail : Bool)
    (hv0 : p.version ≠ 0) (hv : p.version ≠ TERMINAL_SNAPSHOT_VERSION) :
    restoreSnapshot avail (some p) s = (s, []) := by
  unfold restoreSnapshot
  cases avail with
  | false => rfl
  | true => simp [hv0, hv]

/-- Witness for the amended C2: a payload with version `2 ≠ 0` and
`2 ≠ TERMINAL_SNAPSHOT_VERSION` is discarded without any effect. -/
theorem restoreSnapshot_nonzero_mismatch_discarded_witness :
    ((2 : Nat) ≠ 0 ∧ (2 : Nat) ≠ TERMINAL_SNAPSHOT_VERSION) ∧
    restoreSnapshot true
        (some { version := 2, cols := 100, rows := 30, data := "hello" })
        baseState
      = (baseState, []) :=
  ⟨⟨by decide, by decide⟩,
   restoreSnapshot_nonzero_mismatch_discarded
     { version := 2, cols := 100, rows := 30, data := "hello" }
     baseState true (by decide) (by decide)⟩

/-! # Dispose and the final snapshot -/

/-- **C1 (code evaluation at the failing input)** — `dispose()` on a live
session attached to container `7` with the snapshot store available:
the detach step runs (the render container returns to the host), the
transport `kill` is requested and all four listener registries are left
empty, but **no** snapshot capture task is started and no save is
requested — in particular no final snapshot tagged `dispose` is captured.
The `disposed` flag is set before `captureSnapshot('dispose')` runs, so
the guard `if (this.disposed) return` inside `captureSnapshot` silently
skips both the detach-forced capture and the final `dispose` capture,
although `captureSnapshot`'s own body explicitly distinguishes the
`dispose` reason (persisting even an empty buffer) and can only do so if
it were reachable. -/
theorem dispose_skips_final_snapshot :
    runningState.disposed = false ∧
    runningState.attachedContainer = some 7 ∧
    (dispose true 5000 runningState).2
      = [Effect.containerToHost, Effect.ptyKill, Effect.cleanupRun 9,
         Effect.metricsDisposed, Effect.terminalDisposed] ∧
    ((dispose true 5000 runningState).2.all
      fun e => !startsOrSavesCapture e) = true ∧
    (dispose true 5000 runningState).1.activityListeners = [] ∧
    (dispose true 5000 runningState).1.readyListeners = [] ∧
    (dispose true 5000 runningState).1.errorListeners = [] ∧
    (dispose true 5000 runningState).1.exitListeners = [] := by
  refine ⟨rfl, rfl, rfl, rfl, rfl, rfl, rfl, rfl⟩

/-! # Input forwarding after exit -/

theorem ptyInputs_fanout (call : Nat → Except String Unit) (ls : List Nat) :
    ptyInputs (fanout call ls) = [] := by
  induction ls with
  | nil => rfl
  | cons l rest ih =>
    unfold fanout
    cases call l <;> simp [ptyInputs, List.filterMap_cons] at ih ⊢ <;> exact ih

theorem ptyInputs_append (a b : List Effect) :
    ptyInputs (a ++ b) = ptyInputs a ++ ptyInputs b := by
  simp [ptyInputs, List.filterMap_append]

theorem ptyInputs_single (x : String) :
    ptyInputs [Effect.ptyInput x] = [x] := rfl

/-- **C4 (counterexample)** — the claim "no further user input is ever
forwarded to the transport after the transport signals process exit" is
false: on the running session, after the `onPtyExit` handler has run
(clearing `ptyStarted`), a terminal data event carrying `"ls"` still
results in `ptyInput` forwarding `"ls"` to the transport, because the
input handler checks only the `disposed` flag. -/
theorem input_forwarded_after_exit_counterexample :
    (handleExit (fun _ _ => Except.ok ()) ⟨some 0, none⟩
        runningState).1.ptyStarted = false ∧
    ptyInputs (handleInput (fun _ => Except.ok ()) "ls"
        (handleExit (fun _ _ => Except.ok ()) ⟨some 0, none⟩
          runningState).1).2
      = ["ls"] := by
  exact ⟨rfl, by decide⟩

/-- **C4 (amended)** — after the transport signals process exit, user
input *continues* to be forwarded to the transport exactly as before, as
long as the session is not disposed: the exit transition clears
`ptyStarted` (which suppresses size syncs, not input), and only the
`disposed` flag stops input forwarding — a data event on any disposed
session forwards nothing. -/
theorem input_forwarded_until_dispose (s s' : SessionState) (info : ExitInfo)
    (callX : Nat → ExitInfo → Except String Unit)
    (callA : Nat → Except String Unit) (d : String)
    (hdisp : s.disposed = false)
    (hne : removeFocusReports d ≠ "")
    (hdisp' : s'.disposed = true) :
    ptyInputs (handleInput callA d (handleExit callX info s).1).2
      = [removeFocusReports d] ∧
    (handleExit callX info s).1.ptyStarted = false ∧
    ptyInputs (handleInput callA d s').2 = [] := by
  refine ⟨?_, rfl, ?_⟩
  · simp [handleInput, handleExit, emitActivity, hdisp, hne, ptyInputs_append,
          ptyInputs_fanout, ptyInputs_single]
  · simp [handleInput, hdisp', emitActivity, ptyInputs_fanout]

/-- Witness for the amended C4: the running session, exited, still
forwards `"ls"`; the disposed session forwards nothing. -/
theorem input_forwarded_until_dispose_witness :
    (runningState.disposed = false ∧ removeFocusReports "ls" ≠ "" ∧
     disposedState.disposed = true) ∧
    (ptyInputs (handleInput (fun _ => Except.ok ()) "ls"
        (handleExit (fun _ _ => Except.ok ()) ⟨some 0, none⟩
          runningState).1).2
      = [removeFocusReports "ls"] ∧
     (handleExit (fun _ _ => Except.ok ()) ⟨some 0, none⟩
        runningState).1.ptyStarted = false ∧
     ptyInputs (handleInput (fun _ => Except.ok ()) "ls" disposedState).2
      = []) :=
  ⟨⟨rfl, by decide, rfl⟩,
   input_forwarded_until_dispose runningState disposedState ⟨some 0, none⟩
     (fun _ _ => Except.ok ()) (fun _ => Except.ok ()) "ls" rfl (by decide)
     rfl⟩

/-! # Attach / detach protocol -/

theorem captureSnapshot_fst_opened (a : Bool) (n : Nat) (r : Reason)
    (s : SessionState) : (captureSnapshot a n r s).1.opened = s.opened := by
  unfold captureSnapshot
  repeat' split
  all_goals rfl

theorem detach_fst_opened (a : Bool) (n : Nat) (s : SessionState) :
    (detach a n s).1.opened = s.opened := by
  unfold detach
  cases h : s.attachedContainer with
  | none => rfl
  | some c => simp [captureSnapshot_fst_opened]

/-- **C7** — the attach/detach protocol keeps at most one container
attached at any instant (the attachment reference is a single optional
slot, and:) `attach(c)` on a session already attached to `c` is a no-op;
`detach()` on an unattached session is a no-op — in particular it performs
no effect, so it triggers no snapshot capture; and `attach(c)` on a
session attached to a different container `c'` first performs the full
detach (its state change and its trace lead) and then attaches to `c`,
so the session is never attached to two containers. -/
theorem attach_detach_protocol (s₁ s₂ s₃ : SessionState) (c c' : Nat)
    (avail : Bool) (now : Nat)
    (h₁d : s₁.disposed = false) (h₁ : s₁.attachedContainer = some c)
    (h₂ : s₂.attachedContainer = none)
    (h₃d : s₃.disposed = false) (h₃ : s₃.attachedContainer = some c')
    (hne : c' ≠ c) :
    attach avail now c s₁ = .ok (s₁, []) ∧
    detach avail now s₂ = (s₂, []) ∧
    attach avail now c s₃ =
      .ok (reattachState (detach avail now s₃).1 c,
           (detach avail now s₃).2 ++ [Effect.containerMovedTo c]
             ++ (if s₃.opened then [] else [Effect.termOpened])
             ++ [Effect.fitRequested]
             ++ sendSizeIfStarted (reattachState (detach avail now s₃).1 c)
             ++ [Effect.observeStarted, Effect.rafScheduled]) := by
  refine ⟨?_, ?_, ?_⟩
  · simp [attach, h₁d, h₁]
  · simp [detach, h₂]
  · have hcc : s₃.attachedContainer ≠ some c := by simp [h₃, hne]
    simp [attach, reattachState, h₃d, hcc, detach_fst_opened]

/-- Witness for C7: attaching to the already-attached container `7` is a
no-op; detaching the unattached fresh session is a no-op; attaching the
session currently attached to `9` to container `7` detaches first. -/
theorem attach_detach_protocol_witness :
    (runningState.disposed = false ∧
     runningState.attachedContainer = some 7 ∧
     baseState.attachedContainer = none ∧
     attachedElsewhereState.disposed = false ∧
     attachedElsewhereState.attachedContainer = some 9 ∧ (9 : Nat) ≠ 7) ∧
    (attach true 0 7 runningState = .ok (runningState, []) ∧
     detach true 0 baseState = (baseState, []) ∧
     attach true 0 7 attachedElsewhereState =
       .ok (reattachState (detach true 0 attachedElsewhereState).1 7,
            (detach true 0 attachedElsewhereState).2
              ++ [Effect.containerMovedTo 7]
              ++ (if attachedElsewhereState.opened then []
                  else [Effect.termOpened])
              ++ [Effect.fitRequested]
              ++ sendSizeIfStarted
                   (reattachState (detach true 0 attachedElsewhereState).1 7)
              ++ [Effect.observeStarted, Effect.rafScheduled])) :=
  ⟨⟨rfl, rfl, rfl, rfl, rfl, by decide⟩,
   attach_detach_protocol runningState baseState attachedElsewhereState 7 9
     true 0 rfl rfl rfl rfl rfl (by decide)⟩

/-! # Memory guardrail -/

theorem sumLen_nil : sumLen [] = 0 := rfl

theorem sumLen_cons (c : String) (cs : List String) :
    sumLen (c :: cs) = c.length + sumLen cs := by
  simp [sumLen]

theorem truncationCount_append (a b : List Effect) :
    truncationCount (a ++ b) = truncationCount a + truncationCount b := by
  simp [truncationCount, List.countP_append]

theorem truncationCount_writes (cs : List String) :
    truncationCount (cs.map Effect.bufferWrite) = 0 := by
  induction cs with
  | nil => rfl
  | cons c rest ih =>
    simp only [List.map_cons, truncationCount, List.countP_cons] at ih ⊢
    simp [ih]

theorem processChunks_append (a b : List String) (s : SessionState) :
    processChunks (a ++ b) s =
      ((processChunks b (processChunks a s).1).1,
       (processChunks a s).2 ++ (processChunks b (processChunks a s).1).2) := by
  induction a generalizing s with
  | nil => simp [processChunks]
  | cons c rest ih => simp [processChunks, ih]

/-- While the guardrail window is not exceeded, every chunk is accepted:
the handler only writes the chunks and the running byte total grows by
their total size. -/
theorem processChunks_accepted (cs : List String) (s : SessionState)
    (hf : s.firstFrameRendered = true)
    (hle : s.metricsTotal + sumLen cs ≤ MAX_DATA_WINDOW_BYTES) :
    processChunks cs s =
      ({ s with metricsTotal := s.metricsTotal + sumLen cs },
       cs.map Effect.bufferWrite) := by
  induction cs generalizing s with
  | nil => simp [processChunks, sumLen]
  | cons c rest ih =>
    have hlc : sumLen (c :: rest) = c.length + sumLen rest := sumLen_cons c rest
    have hc : s.metricsTotal + c.length ≤ MAX_DATA_WINDOW_BYTES := by omega
    have hstep : handlePtyData c s =
        ({ s with metricsTotal := s.metricsTotal + c.length },
         [Effect.bufferWrite c]) := by
      simp [handlePtyData, canAccept, hc, hf]
    have hrest : s.metricsTotal + c.length + sumLen rest
        ≤ MAX_DATA_WINDOW_BYTES := by omega
    have hih := ih { s with metricsTotal := s.metricsTotal + c.length } hf hrest
    simp only [processChunks, hstep, hih]
    refine Prod.ext ?_ ?_ <;> simp [hlc]
    omega

/-- **C9** — the 128 MiB guardrail, exercised on a chunk sequence that
crosses the ceiling exactly once: the chunks before the crossing chunk fit
in the window and are written verbatim; the crossing chunk is rejected by
`canAccept`, whereupon the handler clears the entire visible buffer,
writes exactly one sentinel notice line and still writes the chunk, and
the guardrail's byte counter is reset; the chunks after the crossing fit
in the fresh window, so over the whole sequence the rejection is signalled
exactly once, at the crossing, and the final byte total counts only the
post-crossing chunks. -/
theorem guardrail_truncates_once (s : SessionState) (cs₁ cs₂ : List String)
    (c : String)
    (h0 : s.metricsTotal = 0) (hf : s.firstFrameRendered = true)
    (h1 : sumLen cs₁ ≤ MAX_DATA_WINDOW_BYTES)
    (h2 : MAX_DATA_WINDOW_BYTES < sumLen cs₁ + c.length)
    (h3 : sumLen cs₂ ≤ MAX_DATA_WINDOW_BYTES) :
    (processChunks (cs₁ ++ c :: cs₂) s).2
      = cs₁.map Effect.bufferWrite
        ++ [Effect.bufferCleared, Effect.bufferLine scrollbackSentinel,
            Effect.bufferWrite c]
        ++ cs₂.map Effect.bufferWrite ∧
    truncationCount (processChunks (cs₁ ++ c :: cs₂) s).2 = 1 ∧
    (processChunks (cs₁ ++ c :: cs₂) s).1.metricsTotal = sumLen cs₂ := by
  have h1' : s.metricsTotal + sumLen cs₁ ≤ MAX_DATA_WINDOW_BYTES := by omega
  have hA := processChunks_accepted cs₁ s hf h1'
  have hreject : handlePtyData c { s with metricsTotal := s.metricsTotal + sumLen cs₁ }
      = ({ s with metricsTotal := 0 },
         [Effect.bufferCleared, Effect.bufferLine scrollbackSentinel,
          Effect.bufferWrite c]) := by
    have hno : ¬ (s.metricsTotal + sumLen cs₁ + c.length
        ≤ MAX_DATA_WINDOW_BYTES) := by omega
    simp [handlePtyData, canAccept, hno, hf]
  have hB := processChunks_accepted cs₂ ({ s with metricsTotal := 0 })
    (by simpa using hf) (by simpa using h3)
  have htrace : (processChunks (cs₁ ++ c :: cs₂) s).2
      = cs₁.map Effect.bufferWrite
        ++ [Effect.bufferCleared, Effect.bufferLine scrollbackSentinel,
            Effect.bufferWrite c]
        ++ cs₂.map Effect.bufferWrite := by
    rw [processChunks_append]
    simp only [processChunks, hA, hreject, hB]
    simp
  have hstate : (processChunks (cs₁ ++ c :: cs₂) s).1.metricsTotal
      = sumLen cs₂ := by
    rw [processChunks_append]
    simp only [processChunks, hA, hreject, hB]
    simp
  refine ⟨htrace, ?_, hstate⟩
  rw [htrace, truncationCount_append, truncationCount_append,
      truncationCount_writes, truncationCount_writes]
  rfl

theorem hugeChunk_length :
    hugeChunk.length = MAX_DATA_WINDOW_BYTES + 1 := by
  simp [hugeChunk, String.length]

/-- Witness for C9: delivering the single chunk `hugeChunk` (128 MiB + 1
bytes) to the fresh rendered session crosses the ceiling immediately: the
trace is exactly clear-buffer, one sentinel line, then the chunk itself,
and the counter is reset. -/
theorem guardrail_truncates_once_witness :
    (frameReadyState.metricsTotal = 0 ∧
     frameReadyState.firstFrameRendered = true ∧
     sumLen [] ≤ MAX_DATA_WINDOW_BYTES ∧
     MAX_DATA_WINDOW_BYTES < sumLen [] + hugeChunk.length ∧
     sumLen [] ≤ MAX_DATA_WINDOW_BYTES) ∧
    ((processChunks ([] ++ hugeChunk :: []) frameReadyState).2
       = [].map Effect.bufferWrite
         ++ [Effect.bufferCleared, Effect.bufferLine scrollbackSentinel,
             Effect.bufferWrite hugeChunk]
         ++ [].map Effect.bufferWrite ∧
     truncationCount
       (processChunks ([] ++ hugeChunk :: []) frameReadyState).2 = 1 ∧
     (processChunks ([] ++ hugeChunk :: []) frameReadyState).1.metricsTotal
       = sumLen []) :=
  ⟨⟨rfl, rfl, by decide, by rw [sumLen_nil, hugeChunk_length]; omega,
    by decide⟩,
   guardrail_truncates_once frameReadyState [] [] hugeChunk rfl rfl
     (by decide) (by rw [sumLen_nil, hugeChunk_length]; omega) (by decide)⟩

/-! # Focus-report filtering -/

theorem removeFR_of_not_contains (l : List Char) (h : containsFR l = false) :
    removeFR l = l := by
  induction l with
  | nil => rfl
  | cons a rest ih =>
    cases rest with
    | nil => rfl
    | cons b rest' =>
      cases rest' with
      | nil => rfl
      | cons e rest'' =>
        simp only [containsFR, Bool.or_eq_false_iff] at h
        obtain ⟨hw, hrest⟩ := h
        simp only [removeFR, hw, if_neg, Bool.false_eq_true, ite_false]
        rw [ih hrest]

theorem removeFR_append_focus (p : List Char) (i : Char) (r : List Char)
    (hi : i = 'I' ∨ i = 'O') (hp : containsFR p = false) :
    removeFR (p ++ '\x1b' :: '[' :: i :: r) = p ++ removeFR r := by
  induction p with
  | nil =>
    have hw : frWindow '\x1b' '[' i = true := by
      rcases hi with h | h <;> simp [frWindow, h]
    simp [removeFR, hw]
  | cons a p' ih =>
    cases p' with
    | nil =>
      have hw1 : frWindow a '\x1b' '[' = false := by simp [frWindow]
      have hw2 : frWindow '\x1b' '[' i = true := by
        rcases hi with h | h <;> simp [frWindow, h]
      simp [removeFR, hw1, hw2]
    | cons b p'' =>
      cases p'' with
      | nil =>
        have hw1 : frWindow a b '\x1b' = false := by simp [frWindow]
        have hw2 : frWindow b '\x1b' '[' = false := by simp [frWindow]
        have hw3 : frWindow '\x1b' '[' i = true := by
          rcases hi with h | h <;> simp [frWindow, h]
        simp [removeFR, hw1, hw2, hw3]
      | cons e p''' =>
        simp only [containsFR, Bool.or_eq_false_iff] at hp
        obtain ⟨hw, hrest⟩ := hp
        have h2 := ih hrest
        simp only [List.cons_append] at h2 ⊢
        simp [removeFR, hw, h2]

/-- The filter removes every focus-report occurrence: for any decomposition
of the input into occurrence-free segments separated by focus reports
(which is how every input decomposes along the leftmost, non-overlapping
matches of the global replace), the output is exactly the concatenation of
the segments. -/
theorem removeFR_joinSegs (pieces : List (List Char × Bool))
    (tail : List Char)
    (hp : ∀ pr ∈ pieces, containsFR pr.1 = false)
    (ht : containsFR tail = false) :
    removeFR (joinSegs pieces tail) = (pieces.map Prod.fst).flatten ++ tail := by
  induction pieces with
  | nil => simpa [joinSegs] using removeFR_of_not_contains tail ht
  | cons pr rest ih =>
    have hpr : containsFR pr.1 = false := hp pr (List.mem_cons_self ..)
    have hrest : ∀ q ∈ rest, containsFR q.1 = false := fun q hq =>
      hp q (List.mem_cons_of_mem _ hq)
    cases hb : pr.2 with
    | true =>
      have h := removeFR_append_focus pr.1 'I' (joinSegs rest tail)
        (Or.inl rfl) hpr
      simp [joinSegs, hb, focusIn, h, ih hrest]
    | false =>
      have h := removeFR_append_focus pr.1 'O' (joinSegs rest tail)
        (Or.inr rfl) hpr
      simp [joinSegs, hb, focusOut, h, ih hrest]

theorem invokedIds_append (a b : List Effect) :
    invokedIds (a ++ b) = invokedIds a ++ invokedIds b := by
  simp [invokedIds, List.filterMap_append]

theorem invokedIds_input (x : String) :
    invokedIds [Effect.ptyInput x] = [] := rfl

/-- **C10** — the `onData` input path on a non-disposed session: a data
event whose focus-report-filtered text is empty forwards nothing to the
transport (the trace is exactly the activity fan-out, which still invokes
every registered activity listener); a data event whose filtered text is
non-empty forwards exactly that filtered text, again after the full
activity fan-out; and the filter itself removes every (leftmost,
non-overlapping) occurrence of `ESC[I` and `ESC[O`: on any input
decomposed into occurrence-free segments separated by focus reports, the
filter returns exactly the segments, with every separator deleted. -/
theorem onData_filters_focus_reports (s : SessionState) (d₁ d₂ : String)
    (callA : Nat → Except String Unit)
    (pieces : List (List Char × Bool)) (tail : List Char)
    (hdisp : s.disposed = false)
    (h₁ : removeFocusReports d₁ = "")
    (h₂ : removeFocusReports d₂ ≠ "")
    (hp : ∀ pr ∈ pieces, containsFR pr.1 = false)
    (ht : containsFR tail = false) :
    (handleInput callA d₁ s).2 = emitActivity callA s ∧
    invokedIds (handleInput callA d₁ s).2 = s.activityListeners ∧
    ptyInputs (handleInput callA d₂ s).2 = [removeFocusReports d₂] ∧
    invokedIds (handleInput callA d₂ s).2 = s.activityListeners ∧
    removeFR (joinSegs pieces tail) = (pieces.map Prod.fst).flatten ++ tail := by
  refine ⟨?_, ?_, ?_, ?_, removeFR_joinSegs pieces tail hp ht⟩
  · simp [handleInput, hdisp, h₁]
  · simp [handleInput, hdisp, h₁, emitActivity, invokedIds_fanout]
  · simp [handleInput, hdisp, h₂, emitActivity, ptyInputs_append,
          ptyInputs_fanout, ptyInputs_single]
  · simp [handleInput, hdisp, h₂, emitActivity, invokedIds_append,
          invokedIds_fanout, invokedIds_input]

/-- Witness for C10: on the running session, the pure focus-report input
`ESC[I ESC[O` filters to empty and forwards nothing while both activity
listeners fire; the input `a ESC[I b` filters to `ab` and forwards exactly
`ab`; and the decomposition `['a'] ⬝ ESC[I ⬝ ['b']` is returned as
`['a', 'b']`. -/
theorem onData_filters_focus_reports_witness :
    (runningState.disposed = false ∧
     removeFocusReports "\x1b[I\x1b[O" = "" ∧
     removeFocusReports "a\x1b[Ib" ≠ "" ∧
     (∀ pr ∈ [((['a'] : List Char), true)], containsFR pr.1 = false) ∧
     containsFR ['b'] = false) ∧
    ((handleInput (fun _ => Except.ok ()) "\x1b[I\x1b[O" runningState).2
       = emitActivity (fun _ => Except.ok ()) runningState ∧
     invokedIds
       (handleInput (fun _ => Except.ok ()) "\x1b[I\x1b[O" runningState).2
       = runningState.activityListeners ∧
     ptyInputs (handleInput (fun _ => Except.ok ()) "a\x1b[Ib"
        runningState).2
       = [removeFocusReports "a\x1b[Ib"] ∧
     invokedIds (handleInput (fun _ => Except.ok ()) "a\x1b[Ib"
        runningState).2
       = runningState.activityListeners ∧
     removeFR (joinSegs [((['a'] : List Char), true)] ['b'])
       = ([((['a'] : List Char), true)].map Prod.fst).flatten ++ ['b']) :=
  ⟨⟨rfl, by decide, by decide, by decide, by decide⟩,
   onData_filters_focus_reports runningState "\x1b[I\x1b[O" "a\x1b[Ib"
     (fun _ => Except.ok ()) [((['a'] : List Char), true)] ['b']
     rfl (by decide) (by decide) (by decide) (by decide)⟩

end TerminalSession
